import Mathlib

/-
Verification development for the custom Slither detector catalogue
(src/tools/slither-detectors).  The detectors are pure pattern-matching
passes over a read-only contract model; each Python detector class is
embedded below as a Lean function over an explicit model of the data the
host framework (slither) exposes to it: contracts, functions, control-flow
nodes with a textual projection, state variables, modifiers, and slithir
high-level call operations.
-/

/- ===================== string primitives ===================== -/

/-- Python `s.lower()` restricted to the ASCII range used by the sources. -/
def lowerStr (s : String) : String := String.mk (s.data.map Char.toLower)

/-- Python `pat in s` (substring containment). -/
def strContains (s pat : String) : Bool :=
  (List.range (s.data.length + 1)).any (fun i => pat.data.isPrefixOf (s.data.drop i))

/-- Python `any(p in s for p in pats)`. -/
def containsAny (s : String) (pats : List String) : Bool :=
  pats.any (fun p => strContains s p)

/-- Python `s.replace("_", "")`. -/
def stripUnderscores (s : String) : String :=
  String.mk (s.data.filter (fun c => c ≠ '_'))

/-- Python regex `\s` character class. -/
def isPySpace (c : Char) : Bool :=
  c = ' ' ∨ c = '\t' ∨ c = '\n' ∨ c = '\x0d' ∨ c = '\x0c' ∨ c = '\x0b'

/-- Run of decimal digits with single interior underscores, as accepted by
Python `int()`; `acc` is the value read so far, `lastDigit` records whether
the previous character was a digit. -/
def pyDigitsAux (acc : Nat) (lastDigit : Bool) : List Char → Option Nat
  | [] => if lastDigit then some acc else none
  | c :: rest =>
    if c.isDigit then pyDigitsAux (acc * 10 + (c.toNat - 48)) true rest
    else if c = '_' ∧ lastDigit then pyDigitsAux acc false rest
    else none

/-- Python `int(s)` on a string: optional surrounding whitespace, optional
sign, then decimal digits; `none` models the `ValueError` path. -/
def parseIntPy (s : String) : Option Int :=
  let cs := ((s.data.dropWhile isPySpace).reverse.dropWhile isPySpace).reverse
  match cs with
  | '+' :: rest => (pyDigitsAux 0 false rest).map Int.ofNat
  | '-' :: rest => (pyDigitsAux 0 false rest).map (fun n => -(n : Int))
  | rest => (pyDigitsAux 0 false rest).map Int.ofNat

/-- Decimal digits prefix taken greedily, as matched by the regex group
`(\d+)` (none when the run is empty). -/
def digitRun (cs : List Char) : List Char := cs.takeWhile Char.isDigit

/-- Value of a nonempty digit run. -/
def digitsToNat (ds : List Char) : Nat :=
  ds.foldl (fun acc c => acc * 10 + (c.toNat - 48)) 0

/-- Attempt the regex `key:\s*(\d+)` at the head of `cs`; mirrors one
anchoring position tried by Python `re.search`. -/
def matchKeyNumAt (key : List Char) (cs : List Char) : Option Nat :=
  if (key ++ [':']).isPrefixOf cs then
    let rest := (cs.drop (key.length + 1)).dropWhile isPySpace
    let ds := digitRun rest
    if ds = [] then none else some (digitsToNat ds)
  else none

/-- Leftmost-match search loop of `re.search(key + r':\s*(\d+)', text)`. -/
def searchKeyNum (key : List Char) : List Char → Option Nat
  | [] => none
  | c :: rest =>
    match matchKeyNumAt key (c :: rest) with
    | some n => some n
    | none => searchKeyNum key rest

/-- Numeric extraction used by `L2GasCalculationRisk._check_gas_usage`
(src/tools/slither-detectors/l2_specific.py lines 349-352): the scan
`re.search(r'gas:\s*(\d+)', content)` followed by `int` of the captured
group, with the literal key `gas` generalized to a parameter. -/
def extract_numeric (text : String) (key : String) : Option Nat :=
  searchKeyNum key.data text.data

/- ===================== contract model ===================== -/

/-- A function parameter: name and the textual rendering of its type. -/
structure Param where
  name : String
  typeStr : String
deriving DecidableEq

/-- One argument of a slithir `HighLevelCall`.  `valueAttr` is
`str(arg.value)` when the argument object has a `value` attribute (a
literal/constant), otherwise `none`.  `depParams` lists the names of the
calling function's parameters `p` for which the host framework's
`is_dependent(arg, p, function)` holds; slither's relation is reflexive, so
a parameter passed directly as an argument is dependent on itself. -/
structure Arg where
  valueAttr : Option String
  depParams : List String
deriving DecidableEq

/-- A slithir `HighLevelCall` operation: callee name (when resolved),
argument list, and whether the call destination is the analyzed contract
itself (`ir.destination != contract` is its negation). -/
structure HLCall where
  functionName : Option String
  arguments : List Arg
  destIsSelf : Bool
deriving DecidableEq

/-- The slithir operations the detectors dispatch on: high-level calls,
assignments whose left value is a state variable, and everything else. -/
inductive IROp where
  | highLevelCall (call : HLCall)
  | assignToState
  | other
deriving DecidableEq

/-- One control-flow node.  `typeName` is `node.type.name`, `content` is
`str(node)`, `exprStr` is `str(node.expression)` when the node carries an
expression, `containsRequireOrAssert` is the host's
`node.contains_require_or_assert()`, `nodeId` is `node.node_id`, and `irs`
is the node's slithir operation list. -/
structure Node where
  typeName : String
  content : String
  exprStr : Option String
  containsRequireOrAssert : Bool
  nodeId : Nat
  irs : List IROp
deriving DecidableEq

/-- A modifier applied to a function. -/
structure Modifier where
  name : String
deriving DecidableEq

/-- An initializer expression; `valueAttr` is `str(expression.value)` when
the expression object has a `value` attribute. -/
structure ExprVal where
  valueAttr : Option String
deriving DecidableEq

/-- A contract state variable. -/
structure StateVariable where
  name : String
  canonicalName : String
  typeStr : String
  expression : Option ExprVal
deriving DecidableEq

/-- A function of the contract model, with the fields the detectors read. -/
structure Function where
  name : String
  canonicalName : String
  visibility : String
  isConstructor : Bool
  parameters : List Param
  modifiers : List Modifier
  nodes : List Node
  stateVariablesWritten : List StateVariable
  internalCalls : List String
deriving DecidableEq

/-- A contract: its functions, state variables, and (when present) its
constructor, as exposed by `contract.constructor`. -/
structure Contract where
  name : String
  functions : List Function
  stateVariables : List StateVariable
  constructorF : Option Function
deriving DecidableEq

/-- The compilation unit handed to each detector; `contractsDerived` is
`compilation_unit.contracts_derived` and `contracts` is
`compilation_unit.contracts`. -/
structure CompilationUnit where
  contractsDerived : List Contract
  contracts : List Contract
deriving DecidableEq

/-- A finding is the `info` list passed to `generate_result`, with entity
objects rendered by the adapter: a `Function` by its canonical name, a
`Node` by its content, a `Contract` by its name. -/
abbrev Finding := List String

/- ===================== mev_risks.py ===================== -/

namespace MissingSlippageProtection

def DEX_SWAP_FUNCTIONS : List String :=
  ["swap", "swapExactTokensForTokens", "swapExactTokensForETH",
   "swapExactETHForTokens", "swapTokensForExactTokens", "exchange",
   "exchange_underlying", "sell", "buy", "exactInputSingle", "exactInput",
   "exactOutputSingle", "exactOutput"]

def MIN_OUTPUT_PARAMS : List String :=
  ["minamountout", "amountoutmin", "minout", "minimumamount", "minreceived",
   "minreturn", "amountoutminimum"]

/-- Argument loop of `_has_slippage_protection`: the first literal-`0`
argument decides `False`, the first parameter-dependent argument decides
`True`, exhaustion decides `False`. -/
def argLoop (params : List Param) : List Arg → Bool
  | [] => false
  | a :: rest =>
    if a.valueAttr = some "0" then false
    else if params.any (fun p => a.depParams.contains p.name) then true
    else argLoop params rest

/-- `MissingSlippageProtection._has_slippage_protection` (mev_risks.py
lines 124-143). -/
def hasSlippageProtection (f : Function) (ir : HLCall) : Bool :=
  if f.parameters.any
      (fun p => MIN_OUTPUT_PARAMS.contains (stripUnderscores (lowerStr p.name))) then
    true
  else argLoop f.parameters ir.arguments

/-- `MissingSlippageProtection._check_function_slippage` (mev_risks.py
lines 103-122). -/
def checkFunctionSlippage (f : Function) : List (Node × String) :=
  f.nodes.flatMap (fun node =>
    node.irs.flatMap (fun ir =>
      match ir with
      | .highLevelCall c =>
        let funcName := c.functionName.getD ""
        if (DEX_SWAP_FUNCTIONS.map lowerStr).contains (lowerStr funcName) then
          if hasSlippageProtection f c then []
          else [(node, "calls " ++ funcName ++ " without slippage protection")]
        else []
      | _ => []))

/-- Per-function body of `MissingSlippageProtection._detect` (mev_risks.py
lines 84-99), including the constructor/visibility skip. -/
def perFunction (f : Function) : List Finding :=
  if f.isConstructor ∨ f.visibility = "private" ∨ f.visibility = "internal" then []
  else
    (checkFunctionSlippage f).map (fun issue =>
      ["MEV Risk: " ++ f.canonicalName ++ " ", issue.2, "\n\t- ",
       issue.1.content, "\n"])

/-- `MissingSlippageProtection._detect` (mev_risks.py lines 81-101). -/
def detect (cu : CompilationUnit) : List Finding :=
  cu.contractsDerived.flatMap (fun c => c.functions.flatMap perFunction)

end MissingSlippageProtection

namespace ExcessiveSlippageTolerance

def MAX_SLIPPAGE_BPS : Int := 500

/-- `ExcessiveSlippageTolerance._is_slippage_variable` (mev_risks.py lines
177-181). -/
def isSlippageVariable (v : StateVariable) : Bool :=
  containsAny (lowerStr v.name) ["slippage", "tolerance", "maxslip", "minout"]

/-- `ExcessiveSlippageTolerance._extract_numeric_value` (mev_risks.py lines
196-202); the `except (ValueError, TypeError)` path is the `none` of
`parseIntPy`. -/
def extractNumericValue (e : ExprVal) : Option Int :=
  match e.valueAttr with
  | some s => parseIntPy s
  | none => none

/-- `ExcessiveSlippageTolerance._check_slippage_value` (mev_risks.py lines
183-194); `if value and value > MAX` is Python truthiness, hence the
`value ≠ 0` conjunct. -/
def checkSlippageValue (v : StateVariable) : List Finding :=
  match v.expression with
  | some e =>
    match extractNumericValue e with
    | some value =>
      if value ≠ 0 ∧ value > MAX_SLIPPAGE_BPS then
        [["Excessive slippage tolerance: " ++ v.canonicalName ++ " = " ++
          toString value ++ "bps (>" ++ toString MAX_SLIPPAGE_BPS ++ "bps)\n"]]
      else []
    | none => []
  | none => []

/-- Per-variable body of `ExcessiveSlippageTolerance._detect` (mev_risks.py
lines 168-173). -/
def perVar (v : StateVariable) : List Finding :=
  if isSlippageVariable v then checkSlippageValue v else []

/-- `ExcessiveSlippageTolerance._detect` (mev_risks.py lines 165-175). -/
def detect (cu : CompilationUnit) : List Finding :=
  cu.contractsDerived.flatMap (fun c => c.stateVariables.flatMap perVar)

end ExcessiveSlippageTolerance

namespace MissingDeadlineCheck

def DEADLINE_PARAMS : List String :=
  ["deadline", "expiry", "validuntil", "expires", "timeout"]

/-- `MissingDeadlineCheck._is_swap_function` (mev_risks.py lines 241-245). -/
def isSwapFunction (f : Function) : Bool :=
  containsAny (lowerStr f.name) ["swap", "exchange", "trade", "sell", "buy"]

/-- `MissingDeadlineCheck._has_deadline_check` (mev_risks.py lines
247-260). -/
def hasDeadlineCheck (f : Function) : Bool :=
  f.parameters.any
    (fun p => DEADLINE_PARAMS.contains (stripUnderscores (lowerStr p.name))) ∨
  f.nodes.any (fun n =>
    n.containsRequireOrAssert ∧
    (let content := n.exprStr.getD ""
     strContains content "block.timestamp" ∨ strContains (lowerStr content) "deadline"))

/-- Per-function body of `MissingDeadlineCheck._detect` (mev_risks.py lines
231-237). -/
def perFunction (f : Function) : List Finding :=
  if isSwapFunction f ∧ ¬hasDeadlineCheck f then
    [["MEV Risk: " ++ f.canonicalName ++ " ",
      "lacks deadline check - transactions can be delayed and front-run\n"]]
  else []

/-- `MissingDeadlineCheck._detect` (mev_risks.py lines 227-239). -/
def detect (cu : CompilationUnit) : List Finding :=
  cu.contractsDerived.flatMap (fun c => c.functions.flatMap perFunction)

end MissingDeadlineCheck

namespace FlashLoanEnabler

def FLASH_LOAN_CALLBACKS : List String :=
  ["onflashloan", "executeOperation", "uniswapV2Call",
   "uniswapV3FlashCallback", "pancakeCall", "callee", "callback"]

/-- `FlashLoanEnabler._validates_caller` (mev_risks.py lines 343-349). -/
def validatesCaller (f : Function) : Bool :=
  f.nodes.any (fun n =>
    n.containsRequireOrAssert ∧ strContains (n.exprStr.getD "") "msg.sender")

/-- `FlashLoanEnabler._has_reentrancy_guard` (mev_risks.py lines 351-357). -/
def hasReentrancyGuard (f : Function) : Bool :=
  f.modifiers.any (fun m =>
    containsAny (lowerStr m.name) ["nonreentrant", "lock", "mutex"])

/-- Nodes holding a `HighLevelCall` whose destination is not the analyzed
contract; appended once per matching ir, as in the source loop. -/
def externalCallNodes (f : Function) : List Node :=
  f.nodes.flatMap (fun n =>
    n.irs.flatMap (fun ir =>
      match ir with
      | .highLevelCall call => if ¬call.destIsSelf then [n] else []
      | _ => []))

/-- Nodes holding an `Assignment` to a state variable. -/
def stateChangeNodes (f : Function) : List Node :=
  f.nodes.flatMap (fun n =>
    n.irs.flatMap (fun ir =>
      match ir with
      | .assignToState => [n]
      | _ => []))

/-- Inner loop over state-change nodes for one external-call node,
including the `break` after the first reported pair. -/
def innerScan (f : Function) (ext : Node) : List Node → List Finding
  | [] => []
  | st :: rest =>
    if st.nodeId > ext.nodeId then
      if ¬hasReentrancyGuard f then
        [["State change after external call in " ++ f.canonicalName ++ " ",
          "at " ++ st.content ++ " - potential flash loan/reentrancy vector\n"]]
      else innerScan f ext rest
    else innerScan f ext rest

/-- `FlashLoanEnabler._check_flash_loan_risk` (mev_risks.py lines 308-341);
the `ir.destination != contract` test is carried by `destIsSelf`. -/
def checkFlashLoanRisk (f : Function) : List Finding :=
  (if FLASH_LOAN_CALLBACKS.contains (stripUnderscores (lowerStr f.name)) ∧
      ¬validatesCaller f then
     [["Flash loan callback " ++ f.canonicalName ++ " ",
       "does not validate caller - may enable unauthorized calls\n"]]
   else []) ++
  (externalCallNodes f).flatMap (fun ext => innerScan f ext (stateChangeNodes f))

/-- `FlashLoanEnabler._detect` (mev_risks.py lines 296-306). -/
def detect (cu : CompilationUnit) : List Finding :=
  cu.contractsDerived.flatMap (fun c =>
    c.functions.flatMap (fun f =>
      if f.visibility = "external" ∨ f.visibility = "public" then
        checkFlashLoanRisk f
      else []))

end FlashLoanEnabler

namespace OracleManipulationRisk

def SPOT_PRICE_FUNCTIONS : List String :=
  ["getspot", "getspotprice", "getreserves", "slot0", "getprice", "getrate"]

def TWAP_FUNCTIONS : List String :=
  ["observe", "consult", "twap", "gettwap", "getaverageprice"]

/-- `OracleManipulationRisk._check_oracle_usage` (mev_risks.py lines
412-452). -/
def checkOracleUsage (f : Function) : List Finding :=
  let usesSpot := f.nodes.any (fun n =>
    containsAny (lowerStr n.content) SPOT_PRICE_FUNCTIONS)
  let usesTwap := f.nodes.any (fun n =>
    containsAny (lowerStr n.content) TWAP_FUNCTIONS)
  let hasFreshness := f.nodes.any (fun n =>
    let content := lowerStr n.content
    strContains content "updatedat" ∨ strContains content "staleness" ∨
    strContains content "heartbeat" ∨
    (strContains content "roundid" ∧ n.containsRequireOrAssert))
  (if usesSpot ∧ ¬usesTwap then
    [["Oracle manipulation risk in " ++ f.canonicalName ++ ": ",
      "uses spot price without TWAP - vulnerable to flash loan manipulation\n"]]
   else []) ++
  (if (usesSpot ∨ usesTwap) ∧ ¬hasFreshness then
    [["Stale oracle risk in " ++ f.canonicalName ++ ": ",
      "no freshness/staleness check on oracle data\n"]]
   else [])

/-- `OracleManipulationRisk._detect` (mev_risks.py lines 401-410). -/
def detect (cu : CompilationUnit) : List Finding :=
  cu.contractsDerived.flatMap (fun c => c.functions.flatMap checkOracleUsage)

end OracleManipulationRisk

/- ===================== l2_specific.py ===================== -/

namespace SequencerDependency

def TIME_SENSITIVE_FUNCTIONS : List String :=
  ["liquidate", "liquidation", "auction", "settle", "expire", "claim",
   "withdraw", "exercise", "executeliquidation", "triggerauction",
   "callmargin"]

def SEQUENCER_CHECK_PATTERNS : List String :=
  ["sequenceruptimefeed", "sequencerstatus", "l2sequencer", "issequencerup"]

/-- `SequencerDependency._is_l2_contract` (l2_specific.py lines 94-108);
iterates `compilation_unit.contracts`. -/
def isL2Contract (cu : CompilationUnit) : Bool :=
  cu.contracts.any (fun c =>
    containsAny (lowerStr c.name) ["arbitrum", "optimism", "l2", "rollup"] ∨
    c.functions.any (fun f =>
      f.nodes.any (fun n =>
        containsAny (lowerStr n.content) ["arbsys", "l2messenger", "ovmcontext"])))

/-- `SequencerDependency._is_time_sensitive` (l2_specific.py lines
110-112). -/
def isTimeSensitive (f : Function) : Bool :=
  containsAny (stripUnderscores (lowerStr f.name)) TIME_SENSITIVE_FUNCTIONS

/-- `SequencerDependency._contract_checks_sequencer` (l2_specific.py lines
114-120). -/
def contractChecksSequencer (c : Contract) : Bool :=
  c.functions.any (fun f =>
    f.nodes.any (fun n =>
      containsAny (stripUnderscores (lowerStr n.content)) SEQUENCER_CHECK_PATTERNS))

/-- `SequencerDependency._detect` (l2_specific.py lines 73-92). -/
def detect (cu : CompilationUnit) : List Finding :=
  if ¬isL2Contract cu then []
  else
    cu.contractsDerived.flatMap (fun c =>
      let hasSequencerCheck := contractChecksSequencer c
      c.functions.flatMap (fun f =>
        if isTimeSensitive f ∧ ¬hasSequencerCheck then
          [["L2 Risk: " ++ f.canonicalName ++ " ",
            "is time-sensitive but contract lacks sequencer uptime check\n",
            "Consider using Chainlink Sequencer Uptime Feed\n"]]
        else []))

end SequencerDependency

namespace L1L2MessageRisk

def L1L2_PATTERNS : List String :=
  ["onlybridge", "onlymessenger", "crosschainmessage", "receivemessage",
   "finalizemessage", "relayermessage", "createretryableticket",
   "redeemticket"]

/-- `L1L2MessageRisk._is_message_handler` (l2_specific.py lines 180-192). -/
def isMessageHandler (f : Function) : Bool :=
  containsAny (stripUnderscores (lowerStr f.name)) L1L2_PATTERNS ∨
  f.modifiers.any (fun m =>
    strContains (lowerStr m.name) "bridge" ∨ strContains (lowerStr m.name) "messenger")

/-- `L1L2MessageRisk._check_message_handler` (l2_specific.py lines
194-216). -/
def checkMessageHandler (f : Function) : List String :=
  let hasReplayProtection := f.nodes.any (fun n =>
    containsAny (lowerStr n.content) ["nonce", "processed", "executed", "messageid"])
  let hasTimestampCheck := f.nodes.any (fun n =>
    strContains (lowerStr n.content) "block.timestamp" ∨
    strContains (lowerStr n.content) "staleness")
  (if ¬hasReplayProtection then
    ["lacks replay protection (no nonce/processed check)"] else []) ++
  (if ¬hasTimestampCheck then
    ["no freshness validation for cross-chain data"] else [])

/-- `L1L2MessageRisk._detect` (l2_specific.py lines 163-178). -/
def detect (cu : CompilationUnit) : List Finding :=
  cu.contractsDerived.flatMap (fun c =>
    c.functions.flatMap (fun f =>
      if isMessageHandler f then
        (checkMessageHandler f).map (fun issue =>
          ["L2 Message Risk: " ++ f.canonicalName ++ " ", issue, "\n"])
      else []))

end L1L2MessageRisk

namespace AddressAliasingRisk

/-- `AddressAliasingRisk._has_cross_chain_handler` (l2_specific.py lines
266-277). -/
def hasCrossChainHandler (c : Contract) : Bool :=
  c.functions.any (fun f =>
    (f.visibility = "external" ∨ f.visibility = "public") ∧
    (f.modifiers.any (fun m =>
       containsAny (lowerStr m.name) ["bridge", "l1", "crosschain"]) ∨
     containsAny (lowerStr f.name) ["froml1", "onreceive", "relayed"]))

/-- `AddressAliasingRisk._handles_address_aliasing` (l2_specific.py lines
279-291). -/
def handlesAddressAliasing (c : Contract) : Bool :=
  c.functions.any (fun f =>
    f.nodes.any (fun n =>
      containsAny (lowerStr n.content)
        ["addressaliashelper", "undol1tol2alias", "applyl1tol2alias",
         "1111000000000000"]))

/-- `AddressAliasingRisk._detect` (l2_specific.py lines 250-264). -/
def detect (cu : CompilationUnit) : List Finding :=
  cu.contractsDerived.flatMap (fun c =>
    if hasCrossChainHandler c ∧ ¬handlesAddressAliasing c then
      [["L2 Address Aliasing Risk: " ++ c.name ++ " ",
        "handles cross-chain messages but may not account for address aliasing\n",
        "L1 contract addresses are offset by 0x1111...1111 on L2\n"]]
    else [])

end AddressAliasingRisk

namespace L2GasCalculationRisk

/-- `L2GasCalculationRisk._check_gas_usage` (l2_specific.py lines
338-362); node content is inspected without lowercasing here. -/
def checkGasUsage (f : Function) : List String :=
  f.nodes.flatMap (fun n =>
    let content := n.content
    (if (strContains content ".call\x7bgas:" ∨ strContains content ".call\x7bvalue:") ∧
        strContains content "gas:" then
      match extract_numeric content "gas" with
      | some gasValue =>
        if 0 < gasValue ∧ gasValue < 1000000 then
          ["hardcoded gas limit (" ++ toString gasValue ++ ") may be insufficient on L2"]
        else []
      | none => []
     else []) ++
    (if strContains content "block.gaslimit" then
      ["block.gaslimit differs significantly on L2 networks"] else []))

/-- `L2GasCalculationRisk._detect` (l2_specific.py lines 322-336). -/
def detect (cu : CompilationUnit) : List Finding :=
  cu.contractsDerived.flatMap (fun c =>
    c.functions.flatMap (fun f =>
      (checkGasUsage f).map (fun issue =>
        ["L2 Gas Risk: " ++ f.canonicalName ++ " ", issue, "\n"])))

end L2GasCalculationRisk

namespace ReorgRisk

/-- `ReorgRisk._check_finality_assumptions` (l2_specific.py lines 409-428);
the `block.number` branch is a `pass` and contributes nothing. -/
def checkFinalityAssumptions (f : Function) : List String :=
  f.nodes.flatMap (fun n =>
    let content := lowerStr n.content
    (if strContains content "blockhash" then
      ["uses blockhash - unreliable on L2 due to different finality"] else []) ++
    (if strContains content "prevrandao" ∨ strContains content "block.difficulty" then
      ["uses prevrandao/difficulty - behavior differs on L2"] else []))

/-- `ReorgRisk._detect` (l2_specific.py lines 393-407). -/
def detect (cu : CompilationUnit) : List Finding :=
  cu.contractsDerived.flatMap (fun c =>
    c.functions.flatMap (fun f =>
      (checkFinalityAssumptions f).map (fun issue =>
        ["L2 Finality Risk: " ++ f.canonicalName ++ " ", issue, "\n"])))

end ReorgRisk

/- ===================== emerging_protocols.py ===================== -/

namespace RestakingSlashingRisk

def SLASHING_PATTERNS : List String :=
  ["slash", "penalize", "slashing", "penalty", "punish", "confiscate"]

/-- `RestakingSlashingRisk._is_restaking_contract` (emerging_protocols.py
lines 81-86). -/
def isRestakingContract (c : Contract) : Bool :=
  containsAny (lowerStr c.name)
    ["restaking", "eigenlayer", "avs", "operator", "delegation", "staking",
     "symbiotic", "vault"]

/-- `RestakingSlashingRisk._is_slashing_function` (emerging_protocols.py
lines 88-90). -/
def isSlashingFunction (f : Function) : Bool :=
  containsAny (stripUnderscores (lowerStr f.name)) SLASHING_PATTERNS

/-- `RestakingSlashingRisk._check_slashing_safety` (emerging_protocols.py
lines 92-132). -/
def checkSlashingSafety (f : Function) (c : Contract) : List String :=
  let tracksCumulative :=
    c.stateVariables.any (fun v =>
      strContains (lowerStr v.name) "cumulativeslash" ∨
      strContains (lowerStr v.name) "totalslash") ∨
    f.nodes.any (fun n =>
      let content := lowerStr n.content
      (strContains content "cumulative" ∨ strContains content "+=") ∧
      containsAny content ["slash", "penalty"])
  let hasCap :=
    c.stateVariables.any (fun v =>
      strContains (lowerStr v.name) "slashingcap" ∨
      strContains (lowerStr v.name) "maxslash") ∨
    f.nodes.any (fun n =>
      strContains (lowerStr n.content) "maxslash" ∨
      strContains (lowerStr n.content) "cap")
  let hasCircuitBreaker := f.nodes.any (fun n =>
    strContains (lowerStr n.content) "paused" ∨
    strContains (lowerStr n.content) "emergency")
  (if ¬hasCap then ["no slashing cap implemented - cascade risk"] else []) ++
  (if ¬tracksCumulative then
    ["doesn't track cumulative slashing across AVS"] else []) ++
  (if ¬hasCircuitBreaker then
    ["no circuit breaker for excessive slashing"] else [])

/-- `RestakingSlashingRisk._detect` (emerging_protocols.py lines 60-79). -/
def detect (cu : CompilationUnit) : List Finding :=
  cu.contractsDerived.flatMap (fun c =>
    if ¬isRestakingContract c then []
    else
      c.functions.flatMap (fun f =>
        if isSlashingFunction f then
          (checkSlashingSafety f c).map (fun issue =>
            ["Restaking Risk: " ++ f.canonicalName ++ " ", issue, "\n"])
        else []))

end RestakingSlashingRisk

namespace RestakingDelegationRisk

def DELEGATION_PATTERNS : List String :=
  ["delegate", "undelegate", "redelegate", "setoperator", "chooseoperator",
   "selectvalidator"]

/-- `RestakingDelegationRisk._is_delegation_function`
(emerging_protocols.py lines 189-191). -/
def isDelegationFunction (f : Function) : Bool :=
  containsAny (stripUnderscores (lowerStr f.name)) DELEGATION_PATTERNS

/-- `RestakingDelegationRisk._check_delegation_safety`
(emerging_protocols.py lines 193-219). -/
def checkDelegationSafety (f : Function) : List String :=
  let nodeCooldown := f.nodes.any (fun n =>
    containsAny (lowerStr n.content) ["cooldown", "waitperiod", "delay"])
  let hasTimelock := f.nodes.any (fun n =>
    let content := lowerStr n.content
    strContains content "block.timestamp" ∧
    containsAny content [">=", ">", "after"])
  let hasCooldown := nodeCooldown ∨
    f.modifiers.any (fun m =>
      containsAny (lowerStr m.name) ["cooldown", "delay", "timelock"])
  if ¬hasCooldown ∧ ¬hasTimelock then
    ["no cooldown/timelock - vulnerable to frontrunning"]
  else []

/-- `RestakingDelegationRisk._detect` (emerging_protocols.py lines
172-187). -/
def detect (cu : CompilationUnit) : List Finding :=
  cu.contractsDerived.flatMap (fun c =>
    c.functions.flatMap (fun f =>
      if isDelegationFunction f then
        (checkDelegationSafety f).map (fun issue =>
          ["Delegation Risk: " ++ f.canonicalName ++ " ", issue, "\n"])
      else []))

end RestakingDelegationRisk

namespace IntentReplayRisk

def INTENT_PATTERNS : List String :=
  ["executeintent", "fillorder", "settleintent", "resolveintent",
   "executesigned", "fillsigned"]

/-- `IntentReplayRisk._is_intent_handler` (emerging_protocols.py lines
276-278). -/
def isIntentHandler (f : Function) : Bool :=
  containsAny (stripUnderscores (lowerStr f.name)) INTENT_PATTERNS

/-- `IntentReplayRisk._check_intent_safety` (emerging_protocols.py lines
280-310). -/
def checkIntentSafety (f : Function) : List String :=
  let hasNonceCheck := f.nodes.any (fun n =>
    containsAny (lowerStr n.content) ["nonce", "executed", "consumed"] ∧
    n.containsRequireOrAssert)
  let marksConsumed := f.nodes.any (fun n =>
    containsAny (lowerStr n.content) ["nonce", "executed", "consumed"] ∧
    (strContains (lowerStr n.content) "= true" ∨ strContains (lowerStr n.content) "["))
  let hasExpiryCheck := f.nodes.any (fun n =>
    containsAny (lowerStr n.content) ["deadline", "expiry", "validuntil"] ∧
    (strContains (lowerStr n.content) "block.timestamp" ∨ n.containsRequireOrAssert))
  (if ¬hasNonceCheck then
    ["no nonce/consumed check - intent may be replayed"] else []) ++
  (if ¬hasExpiryCheck then
    ["no expiry validation - stale intents may execute"] else []) ++
  (if ¬marksConsumed then
    ["intent not marked as consumed after execution"] else [])

/-- `IntentReplayRisk._detect` (emerging_protocols.py lines 259-274). -/
def detect (cu : CompilationUnit) : List Finding :=
  cu.contractsDerived.flatMap (fun c =>
    c.functions.flatMap (fun f =>
      if isIntentHandler f then
        (checkIntentSafety f).map (fun issue =>
          ["Intent Risk: " ++ f.canonicalName ++ " ", issue, "\n"])
      else []))

end IntentReplayRisk

namespace SolverCollusionRisk

/-- `SolverCollusionRisk._is_solver_contract` (emerging_protocols.py lines
357-361). -/
def isSolverContract (c : Contract) : Bool :=
  containsAny (lowerStr c.name)
    ["solver", "resolver", "filler", "relayer", "settler"]

/-- `SolverCollusionRisk._check_solver_fairness` (emerging_protocols.py
lines 363-392). -/
def checkSolverFairness (c : Contract) : List String :=
  let hasAuction := c.functions.any (fun f =>
    containsAny (lowerStr f.name) ["auction", "bid", "compete"])
  let hasReputation := c.functions.any (fun f =>
    containsAny (lowerStr f.name) ["reputation", "score", "slash"])
  let hasPriceCheck := c.functions.any (fun f =>
    f.nodes.any (fun n =>
      containsAny (lowerStr n.content) ["minprice", "priceimprovement", "marketprice"]))
  (if ¬hasAuction then
    ["no solver auction mechanism - single solver may extract value"] else []) ++
  (if ¬hasPriceCheck then ["no price improvement validation"] else []) ++
  (if ¬hasReputation then ["no solver reputation/slashing mechanism"] else [])

/-- `SolverCollusionRisk._detect` (emerging_protocols.py lines 341-355). -/
def detect (cu : CompilationUnit) : List Finding :=
  cu.contractsDerived.flatMap (fun c =>
    if isSolverContract c then
      (checkSolverFairness c).map (fun issue =>
        ["Solver Risk: " ++ c.name ++ " ", issue, "\n"])
    else [])

end SolverCollusionRisk

namespace PointsSybilRisk

def POINTS_PATTERNS : List String :=
  ["addpoints", "accumulatepoints", "awardpoints", "updatepoints",
   "claimpoints", "refer", "referral"]

/-- `PointsSybilRisk._is_points_function` (emerging_protocols.py lines
450-452). -/
def isPointsFunction (f : Function) : Bool :=
  containsAny (stripUnderscores (lowerStr f.name)) POINTS_PATTERNS

/-- `PointsSybilRisk._check_points_safety` (emerging_protocols.py lines
454-481). -/
def checkPointsSafety (f : Function) : List String :=
  let hasTimeWeight := f.nodes.any (fun n =>
    containsAny (lowerStr n.content) ["timeweight", "duration", "elapsed"])
  let hasMinDuration := f.nodes.any (fun n =>
    containsAny (lowerStr n.content) ["minduration", "lockperiod", "vestingstart"])
  let hasCap := f.nodes.any (fun n =>
    containsAny (lowerStr n.content) ["maxpoints", "cap", "limit"])
  (if ¬hasTimeWeight ∧ ¬hasMinDuration then
    ["no time-weighting - vulnerable to flash loan point farming"] else []) ++
  (if strContains (lowerStr f.name) "referral" ∧ ¬hasCap then
    ["referral rewards not capped - Sybil risk"] else [])

/-- `PointsSybilRisk._detect` (emerging_protocols.py lines 433-448). -/
def detect (cu : CompilationUnit) : List Finding :=
  cu.contractsDerived.flatMap (fun c =>
    c.functions.flatMap (fun f =>
      if isPointsFunction f then
        (checkPointsSafety f).map (fun issue =>
          ["Points Risk: " ++ f.canonicalName ++ " ", issue, "\n"])
      else []))

end PointsSybilRisk

namespace MerkleProofRisk

/-- `MerkleProofRisk._is_merkle_claim` (emerging_protocols.py lines
529-533). -/
def isMerkleClaim (f : Function) : Bool :=
  (strContains (lowerStr f.name) "claim" ∨ strContains (lowerStr f.name) "redeem") ∧
  strContains (String.intercalate " " (f.parameters.map (fun p => lowerStr p.name)))
    "proof"

/-- `MerkleProofRisk._check_merkle_safety` (emerging_protocols.py lines
535-563). -/
def checkMerkleSafety (f : Function) (c : Contract) : List String :=
  let hasClaimTracking :=
    c.stateVariables.any (fun v =>
      strContains (lowerStr v.name) "claimed" ∨
      strContains (lowerStr v.name) "redeemed") ∨
    f.nodes.any (fun n =>
      strContains (lowerStr n.content) "claimed[" ∨
      strContains (lowerStr n.content) "redeemed[")
  let verifiesSender := f.nodes.any (fun n =>
    let content := lowerStr n.content
    (strContains content "merkle" ∨ strContains content "verify") ∧
    strContains content "msg.sender")
  (if ¬hasClaimTracking then
    ["no claim tracking - double claim possible"] else []) ++
  (if ¬verifiesSender then
    ["proof doesn't include msg.sender - proof may be reused"] else [])

/-- `MerkleProofRisk._detect` (emerging_protocols.py lines 512-527). -/
def detect (cu : CompilationUnit) : List Finding :=
  cu.contractsDerived.flatMap (fun c =>
    c.functions.flatMap (fun f =>
      if isMerkleClaim f then
        (checkMerkleSafety f c).map (fun issue =>
          ["Merkle Risk: " ++ f.canonicalName ++ " ", issue, "\n"])
      else []))

end MerkleProofRisk

/- ===================== admin_security.py ===================== -/

namespace ProxyUpgradeNoTimelock

def UPGRADE_PATTERNS : List String :=
  ["upgrade", "upgradeto", "upgradetoandcall", "setimplementation",
   "changeimplementation", "_setimplementation"]

def TIMELOCK_PATTERNS : List String :=
  ["timelock", "delay", "scheduledupgrade", "pendingimplementation",
   "upgradequeue", "mindelay"]

/-- `ProxyUpgradeNoTimelock._is_proxy_or_admin` (admin_security.py lines
105-110). -/
def isProxyOrAdmin (c : Contract) : Bool :=
  containsAny (lowerStr c.name)
    ["proxy", "admin", "upgradeable", "upgradeability", "proxyadmin",
     "transparentproxy", "uups"]

/-- `ProxyUpgradeNoTimelock._is_upgrade_function` (admin_security.py lines
112-114). -/
def isUpgradeFunction (f : Function) : Bool :=
  containsAny (stripUnderscores (lowerStr f.name)) UPGRADE_PATTERNS

/-- `ProxyUpgradeNoTimelock._contract_has_timelock` (admin_security.py
lines 116-129). -/
def contractHasTimelock (c : Contract) : Bool :=
  c.stateVariables.any (fun v =>
    containsAny (lowerStr v.name) TIMELOCK_PATTERNS) ∨
  c.functions.any (fun f =>
    containsAny (lowerStr f.name) ["schedule", "queue", "execute"])

/-- `ProxyUpgradeNoTimelock._function_has_delay` (admin_security.py lines
131-139). -/
def functionHasDelay (f : Function) : Bool :=
  f.nodes.any (fun n =>
    let content := lowerStr n.content
    containsAny content TIMELOCK_PATTERNS ∨
    (strContains content "block.timestamp" ∧ strContains content ">="))

/-- The finding built for one upgrade function (admin_security.py lines
95-101). -/
def upgradeFinding (f : Function) : Finding :=
  ["🚨 Admin Risk: " ++ f.canonicalName ++ " ",
   "allows immediate proxy upgrade without timelock\n",
   "On L2: Attacker can upgrade → drain → bridge to L1 in one tx\n",
   "Recommendation: Add timelock > 7 days (L2→L1 bridge delay)\n"]

/-- Per-contract body of `ProxyUpgradeNoTimelock._detect`
(admin_security.py lines 85-101). -/
def perContract (c : Contract) : List Finding :=
  if ¬isProxyOrAdmin c then []
  else
    let hasTimelock := contractHasTimelock c
    c.functions.flatMap (fun f =>
      if isUpgradeFunction f then
        if ¬hasTimelock ∧ ¬functionHasDelay f then [upgradeFinding f] else []
      else [])

/-- `ProxyUpgradeNoTimelock._detect` (admin_security.py lines 82-103). -/
def detect (cu : CompilationUnit) : List Finding :=
  cu.contractsDerived.flatMap perContract

end ProxyUpgradeNoTimelock

namespace SharedDeployerRisk

/-- `SharedDeployerRisk._has_admin_transfer` (admin_security.py lines
216-221). -/
def hasAdminTransfer (c : Contract) : Bool :=
  c.functions.any (fun f =>
    containsAny (lowerStr f.name) ["transferadmin", "setadmin", "changeadmin"])

/-- `SharedDeployerRisk._has_ownership_transfer` (admin_security.py lines
223-228). -/
def hasOwnershipTransfer (c : Contract) : Bool :=
  c.functions.any (fun f =>
    containsAny (lowerStr f.name) ["transferownership", "setowner", "changeowner"])

/-- `SharedDeployerRisk._check_deployer_patterns` (admin_security.py lines
188-214). -/
def checkDeployerPatterns (c : Contract) : List String :=
  match c.constructorF with
  | none => []
  | some ctor =>
    ctor.nodes.flatMap (fun n =>
      let content := lowerStr n.content
      (if strContains content "msg.sender" ∧ strContains content "admin" then
        if ¬hasAdminTransfer c then
          ["assigns deployer (msg.sender) as admin without transfer mechanism"]
        else []
       else []) ++
      (if strContains content "msg.sender" ∧ strContains content "owner" then
        if ¬hasOwnershipTransfer c then
          ["assigns deployer as owner - ensure ownership is transferred to multi-sig"]
        else []
       else []))

/-- `SharedDeployerRisk._detect` (admin_security.py lines 173-186). -/
def detect (cu : CompilationUnit) : List Finding :=
  cu.contractsDerived.flatMap (fun c =>
    (checkDeployerPatterns c).map (fun issue =>
      ["🔑 Admin Risk: " ++ c.name ++ " ", issue, "\n"]))

end SharedDeployerRisk

namespace L2BridgeExitRisk

def ADMIN_PATTERNS : List String :=
  ["onlyadmin", "onlyowner", "onlygovernance", "onlyauthorized", "adminonly"]

/-- `L2BridgeExitRisk._is_admin_withdrawal` (admin_security.py lines
307-323). -/
def isAdminWithdrawal (f : Function) : Bool :=
  containsAny (lowerStr f.name)
    ["withdraw", "rescue", "recover", "sweep", "transfer", "bridge"] ∧
  f.modifiers.any (fun m => containsAny (lowerStr m.name) ADMIN_PATTERNS)

/-- `L2BridgeExitRisk._check_withdrawal_safety` (admin_security.py lines
325-355). -/
def checkWithdrawalSafety (f : Function) : List String :=
  let hasLimit := f.nodes.any (fun n =>
    containsAny (lowerStr n.content) ["maxwithdrawal", "withdrawallimit", "dailylimit"])
  let hasDelay := f.nodes.any (fun n =>
    containsAny (lowerStr n.content) ["delay", "timelock", "pending"])
  let hasMultisig := f.nodes.any (fun n =>
    containsAny (lowerStr n.content) ["multisig", "threshold", "signatures"])
  (if ¬hasLimit then ["no withdrawal limit - admin can drain all funds"] else []) ++
  (if ¬hasDelay then ["no withdrawal delay - instant drain possible"] else []) ++
  (if ¬hasMultisig then
    ["no multi-sig requirement - single key compromise sufficient"] else [])

/-- `L2BridgeExitRisk._detect` (admin_security.py lines 290-305). -/
def detect (cu : CompilationUnit) : List Finding :=
  cu.contractsDerived.flatMap (fun c =>
    c.functions.flatMap (fun f =>
      if isAdminWithdrawal f then
        (checkWithdrawalSafety f).map (fun issue =>
          ["🌉 L2 Exit Risk: " ++ f.canonicalName ++ " ", issue, "\n"])
      else []))

end L2BridgeExitRisk

namespace EmergencyWithdrawRisk

def EMERGENCY_PATTERNS : List String :=
  ["emergency", "rescue", "recover", "sweep", "panic"]

/-- `EmergencyWithdrawRisk._is_emergency_function` (admin_security.py lines
415-417). -/
def isEmergencyFunction (f : Function) : Bool :=
  containsAny (lowerStr f.name) EMERGENCY_PATTERNS

/-- `EmergencyWithdrawRisk._check_emergency_safety` (admin_security.py
lines 419-449). -/
def checkEmergencySafety (f : Function) : List String :=
  let restrictedToAdmin := f.modifiers.any (fun m =>
    containsAny (lowerStr m.name) ["admin", "owner", "governance"])
  let requiresUserAction := f.nodes.any (fun n =>
    let content := lowerStr n.content
    strContains content "msg.sender" ∧
    containsAny content ["user", "depositor", "position"])
  let hasTokenWhitelist := f.nodes.any (fun n =>
    strContains (lowerStr n.content) "allowedtoken" ∨
    strContains (lowerStr n.content) "rescuetokens")
  (if restrictedToAdmin ∧ ¬requiresUserAction then
    ["admin can withdraw without user consent"] else []) ++
  (if ¬hasTokenWhitelist then
    ["no token whitelist - can rescue any token including user deposits"] else [])

/-- `EmergencyWithdrawRisk._detect` (admin_security.py lines 398-413). -/
def detect (cu : CompilationUnit) : List Finding :=
  cu.contractsDerived.flatMap (fun c =>
    c.functions.flatMap (fun f =>
      if isEmergencyFunction f then
        (checkEmergencySafety f).map (fun issue =>
          ["⚠️ Emergency Risk: " ++ f.canonicalName ++ " ", issue, "\n"])
      else []))

end EmergencyWithdrawRisk

namespace MultiSigBypassRisk

/-- `MultiSigBypassRisk._is_multisig_contract` (admin_security.py lines
498-502). -/
def isMultisigContract (c : Contract) : Bool :=
  containsAny (lowerStr c.name)
    ["multisig", "gnosis", "safe", "wallet", "signers"]

/-- `MultiSigBypassRisk._function_has_delay` (admin_security.py lines
528-533). -/
def functionHasDelay (f : Function) : Bool :=
  f.nodes.any (fun n =>
    containsAny (lowerStr n.content) ["delay", "timelock", "pending", "queue"])

/-- `MultiSigBypassRisk._check_multisig_safety` (admin_security.py lines
504-526). -/
def checkMultisigSafety (c : Contract) : List String :=
  c.functions.flatMap (fun f =>
    let name := lowerStr f.name
    (if strContains name "threshold" then
      if functionHasDelay f then [] else ["threshold change has no timelock"]
     else []) ++
    (if containsAny name ["addsigner", "removesigner", "addowner", "removeowner"] then
      if functionHasDelay f then [] else ["signer management has no timelock"]
     else []))

/-- `MultiSigBypassRisk._detect` (admin_security.py lines 482-496). -/
def detect (cu : CompilationUnit) : List Finding :=
  cu.contractsDerived.flatMap (fun c =>
    if isMultisigContract c then
      (checkMultisigSafety c).map (fun issue =>
        ["🔐 Multi-Sig Risk: " ++ c.name ++ " ", issue, "\n"])
    else [])

end MultiSigBypassRisk

/- ===================== cryptographic_primitives.py ===================== -/

namespace BN254ZeroPointDetector

def CRYPTO_PATTERNS : List String :=
  ["bn254", "bls", "g1point", "g2point", "pairing", "verifysignature",
   "verifyproof", "aggregate", "ecadd", "ecmul", "ecpairing"]

/-- `BN254ZeroPointDetector._handles_crypto` (cryptographic_primitives.py
lines 95-116); `internalCalls` holds the (named) internal call names. -/
def handlesCrypto (f : Function) : Bool :=
  containsAny (lowerStr f.name) CRYPTO_PATTERNS ∨
  f.parameters.any (fun p =>
    (strContains (lowerStr p.typeStr) "uint256[2]" ∨
     strContains (lowerStr p.typeStr) "uint256[4]") ∧
    containsAny (lowerStr p.name) ["key", "point", "sig", "pub", "g1", "g2"]) ∨
  f.internalCalls.any (fun call =>
    containsAny (lowerStr call) CRYPTO_PATTERNS)

/-- `BN254ZeroPointDetector._has_zero_check` (cryptographic_primitives.py
lines 118-135); the regex-looking entries are matched literally, exactly as
the source's `pattern.lower() in node_str` does. -/
def hasZeroCheck (f : Function) : Bool :=
  f.nodes.any (fun n =>
    containsAny (lowerStr n.content)
      ["!= 0", "!= 0x0", "!= address(0)", "> 0", "point.x != 0",
       "point.y != 0", "require(.*key.*!= 0", "require(.*point.*!= 0"])

/-- `BN254ZeroPointDetector._detect` (cryptographic_primitives.py lines
73-93). -/
def detect (cu : CompilationUnit) : List Finding :=
  cu.contractsDerived.flatMap (fun c =>
    c.functions.flatMap (fun f =>
      if ¬handlesCrypto f then []
      else if ¬hasZeroCheck f then
        [[f.canonicalName,
          " handles BN254/BLS points but may not validate against zero point (0,0)\n",
          "Zero point is the identity element and can bypass signature verification\n"]]
      else []))

end BN254ZeroPointDetector

namespace RogueKeyAttackDetector

/-- `RogueKeyAttackDetector._is_key_registration`
(cryptographic_primitives.py lines 197-208). -/
def isKeyRegistration (f : Function) : Bool :=
  containsAny (lowerStr f.name)
    ["register", "setkey", "addkey", "updatekey", "setpublic"] ∧
  f.parameters.any (fun p =>
    containsAny (lowerStr p.name) ["key", "pubkey", "public", "g1", "g2"])

/-- `RogueKeyAttackDetector._has_pop_verification`
(cryptographic_primitives.py lines 210-222). -/
def hasPopVerification (f : Function) : Bool :=
  f.nodes.any (fun n =>
    containsAny (lowerStr n.content) ["verify", "proof", "signature", "pop"]) ∨
  f.parameters.any (fun p =>
    containsAny (lowerStr p.name) ["proof", "signature", "pop", "attestation"])

/-- `RogueKeyAttackDetector._detect` (cryptographic_primitives.py lines
175-195). -/
def detect (cu : CompilationUnit) : List Finding :=
  cu.contractsDerived.flatMap (fun c =>
    c.functions.flatMap (fun f =>
      if ¬isKeyRegistration f then []
      else if ¬hasPopVerification f then
        [[f.canonicalName,
          " registers BLS/BN254 keys without proof-of-possession\n",
          "This enables rogue key attacks on aggregate signatures\n"]]
      else []))

end RogueKeyAttackDetector

namespace SignatureMalleabilityDetector

/-- `SignatureMalleabilityDetector._has_malleability_check`
(cryptographic_primitives.py lines 275-288). -/
def hasMalleabilityCheck (f : Function) : Bool :=
  f.nodes.any (fun n =>
    let content := lowerStr n.content
    strContains content "s <" ∨ strContains content "s <=" ∨
    (strContains content "secp256k1" ∧ strContains content "div") ∨
    strContains content "ecdsa.recover" ∨ strContains content "ecdsa.tryrecover")

/-- `SignatureMalleabilityDetector._detect` (cryptographic_primitives.py
lines 255-273); one finding per `ecrecover` node. -/
def detect (cu : CompilationUnit) : List Finding :=
  cu.contractsDerived.flatMap (fun c =>
    c.functions.flatMap (fun f =>
      f.nodes.flatMap (fun n =>
        if strContains (lowerStr n.content) "ecrecover" then
          if ¬hasMalleabilityCheck f then
            [[n.content, " uses ecrecover without s-value malleability protection\n"]]
          else []
        else [])))

end SignatureMalleabilityDetector

namespace ZKProofVerificationGapDetector

def ZK_PATTERNS : List String :=
  ["verify", "proof", "groth16", "plonk", "snark", "stark"]

/-- `ZKProofVerificationGapDetector._handles_zk`
(cryptographic_primitives.py lines 325-335). -/
def handlesZk (f : Function) : Bool :=
  containsAny (lowerStr f.name) ZK_PATTERNS ∨
  f.parameters.any (fun p => strContains (lowerStr p.name) "proof")

/-- `ZKProofVerificationGapDetector._check_verification_completeness`
(cryptographic_primitives.py lines 337-354). -/
def checkVerificationCompleteness (f : Function) : List String :=
  let hasReturnCheck := f.nodes.any (fun n =>
    strContains (lowerStr n.content) "require" ∧
    strContains (lowerStr n.content) "verify")
  let hasRevert := f.nodes.any (fun n =>
    strContains (lowerStr n.content) "revert")
  if ¬hasReturnCheck ∧ ¬hasRevert then
    ["ZK verification result may not be checked"]
  else []

/-- `ZKProofVerificationGapDetector._detect` (cryptographic_primitives.py
lines 308-323). -/
def detect (cu : CompilationUnit) : List Finding :=
  cu.contractsDerived.flatMap (fun c =>
    c.functions.flatMap (fun f =>
      if ¬handlesZk f then []
      else
        (checkVerificationCompleteness f).map (fun issue =>
          [f.canonicalName, " " ++ issue ++ "\n"])))

end ZKProofVerificationGapDetector

namespace PrecompileGasExhaustionDetector

def ECC_PRECOMPILES : List String :=
  ["ecadd", "ecmul", "ecpairing", "ecrecover", "modexp"]

/-- `PrecompileGasExhaustionDetector._count_precompile_uses`
(cryptographic_primitives.py lines 410-420): one count per (node, pattern)
pair that matches. -/
def countPrecompileUses (f : Function) : Nat :=
  f.nodes.foldl (fun count n =>
    ECC_PRECOMPILES.foldl (fun count p =>
      if strContains (lowerStr n.content) p then count + 1 else count) count) 0

/-- `PrecompileGasExhaustionDetector._detect` (cryptographic_primitives.py
lines 391-408). -/
def detect (cu : CompilationUnit) : List Finding :=
  cu.contractsDerived.flatMap (fun c =>
    c.functions.flatMap (fun f =>
      let precompileUses := countPrecompileUses f
      if precompileUses > 0 then
        [[f.canonicalName,
          " uses " ++ toString precompileUses ++
          " ECC precompile(s) which may have higher gas costs on L2\n",
          "Consider L2-specific gas testing\n"]]
      else []))

end PrecompileGasExhaustionDetector

/- ===================== fcfs_tiering.py ===================== -/

namespace TierBoundaryEdgeCaseDetector

def TIER_PATTERNS : List String := ["tier", "rank", "level", "boundary", "threshold"]

/-- `TierBoundaryEdgeCaseDetector._handles_tiers` (fcfs_tiering.py lines
97-108). -/
def handlesTiers (f : Function) : Bool :=
  containsAny (lowerStr f.name) TIER_PATTERNS ∨
  f.nodes.any (fun n => containsAny (lowerStr n.content) TIER_PATTERNS)

/-- `TierBoundaryEdgeCaseDetector._has_tier_division` (fcfs_tiering.py
lines 110-122). -/
def hasTierDivision (f : Function) : Bool :=
  f.nodes.any (fun n =>
    let content := lowerStr n.content
    ((strContains content "/ 100" ∨ strContains content "/ 1000") ∧
     containsAny content TIER_PATTERNS) ∨
    strContains content "percent" ∨ strContains content "bps")

/-- `TierBoundaryEdgeCaseDetector._detect` (fcfs_tiering.py lines 76-95). -/
def detect (cu : CompilationUnit) : List Finding :=
  cu.contractsDerived.flatMap (fun c =>
    c.functions.flatMap (fun f =>
      if ¬handlesTiers f then []
      else if hasTierDivision f then
        [[f.canonicalName,
          " calculates tier boundaries using integer division\n",
          "At specific staker counts (e.g., 10N+4), boundaries may collide\n"]]
      else []))

end TierBoundaryEdgeCaseDetector

namespace GhostStakerDetector

/-- `GhostStakerDetector._enforces_minimum` (fcfs_tiering.py lines
186-198). -/
def enforcesMinimum (f : Function) : Bool :=
  f.nodes.any (fun n =>
    let content := lowerStr n.content
    ((strContains content "require" ∨ strContains content "revert") ∧
     containsAny content ["amount > 0", "amount >= min", "minstake", "_amount > 0"]) ∨
    (strContains content "if" ∧ strContains content "== 0" ∧
     strContains content "revert"))

/-- Name filter of `GhostStakerDetector._detect` (fcfs_tiering.py line
171). -/
def isStakeLike (f : Function) : Bool :=
  containsAny (lowerStr f.name) ["stake", "deposit", "join", "register"]

/-- The finding built for one unguarded stake-like function (fcfs_tiering.py
lines 176-182). -/
def ghostFinding (f : Function) : Finding :=
  [f.canonicalName, " may allow zero-amount staking, creating ghost entries\n"]

/-- Per-function body of `GhostStakerDetector._detect` (fcfs_tiering.py
lines 167-182). -/
def perFunction (f : Function) : List Finding :=
  if ¬isStakeLike f then []
  else if ¬enforcesMinimum f then [ghostFinding f]
  else []

/-- `GhostStakerDetector._detect` (fcfs_tiering.py lines 163-184). -/
def detect (cu : CompilationUnit) : List Finding :=
  cu.contractsDerived.flatMap (fun c => c.functions.flatMap perFunction)

end GhostStakerDetector

namespace CascadingTierUpdateDoSDetector

/-- Pattern filter on node content applied inside the loop scan
(fcfs_tiering.py lines 290-292). -/
def matchesUpdate (n : Node) : Bool :=
  containsAny (lowerStr n.content) ["update", "recalculate", "tier", "rank"]

/-- Loop-construct recognition (fcfs_tiering.py line 285). -/
def isLoopNode (n : Node) : Bool :=
  n.typeName = "STARTLOOP" ∨ n.typeName = "IFLOOP"

/-- `CascadingTierUpdateDoSDetector._modifies_ranking` (fcfs_tiering.py
lines 262-276). -/
def modifiesRanking (f : Function) : Bool :=
  containsAny (lowerStr f.name)
    ["stake", "unstake", "update", "rerank", "recalculate"] ∨
  f.stateVariablesWritten.any (fun v =>
    containsAny (lowerStr v.name) ["rank", "tier", "position", "tree", "fenwick"])

/-- `CascadingTierUpdateDoSDetector._has_cascading_loop` (fcfs_tiering.py
lines 278-294): a single pass that increments `loop_count` at every
loop-start node (never decrementing it) and records an update-pattern match
at any node reached while `loop_count > 0`. -/
def hasCascadingLoop (f : Function) : Bool :=
  (f.nodes.foldl
    (fun (st : Nat × Bool) n =>
      let loopCount := if isLoopNode n then st.1 + 1 else st.1
      let hasUpdate := if loopCount > 0 ∧ matchesUpdate n then true else st.2
      (loopCount, hasUpdate))
    (0, false)).2

/-- `CascadingTierUpdateDoSDetector._detect` (fcfs_tiering.py lines
240-260). -/
def detect (cu : CompilationUnit) : List Finding :=
  cu.contractsDerived.flatMap (fun c =>
    c.functions.flatMap (fun f =>
      if ¬modifiesRanking f then []
      else if hasCascadingLoop f then
        [[f.canonicalName,
          " may trigger cascading tier updates with O(k × log n) gas cost\n",
          "Consider lazy calculation or batched updates\n"]]
      else []))

end CascadingTierUpdateDoSDetector

namespace PositionGamingDetector

/-- `PositionGamingDetector._has_fcfs_mechanics` (fcfs_tiering.py lines
343-354). -/
def hasFcfsMechanics (c : Contract) : Bool :=
  c.stateVariables.any (fun v =>
    containsAny (lowerStr v.name) ["rank", "tier", "position", "fcfs", "queue"]) ∨
  c.functions.any (fun f =>
    containsAny (lowerStr f.name) ["rank", "tier", "position"])

/-- `PositionGamingDetector._has_anti_gaming` (fcfs_tiering.py lines
356-368). -/
def hasAntiGaming (c : Contract) : Bool :=
  c.stateVariables.any (fun v =>
    containsAny (lowerStr v.name) ["cooldown", "lockup", "timelock", "commit", "reveal"]) ∨
  c.functions.any (fun f =>
    containsAny (lowerStr f.name) ["cooldown", "commit", "reveal", "lock"])

/-- `PositionGamingDetector._detect` (fcfs_tiering.py lines 322-341). -/
def detect (cu : CompilationUnit) : List Finding :=
  cu.contractsDerived.flatMap (fun c =>
    if ¬hasFcfsMechanics c then []
    else if ¬hasAntiGaming c then
      [[c.name,
        " implements FCFS ranking without anti-gaming measures\n",
        "Consider cooldowns, time-weighting, or commit-reveal\n"]]
    else [])

end PositionGamingDetector

namespace FenwickTreeConsistencyDetector

def TREE_PATTERNS : List String :=
  ["fenwick", "bit", "binaryindexed", "segmenttree", "rankingtree"]

/-- `FenwickTreeConsistencyDetector._uses_tree_structure` (fcfs_tiering.py
lines 432-440). -/
def usesTreeStructure (c : Contract) : Bool :=
  c.stateVariables.any (fun v =>
    containsAny (lowerStr v.name) TREE_PATTERNS ∨
    containsAny (lowerStr v.typeStr) TREE_PATTERNS)

/-- `FenwickTreeConsistencyDetector._check_consistency` (fcfs_tiering.py
lines 442-467): only the unstake-side scan produces issues. -/
def checkConsistency (c : Contract) : List (String × Function) :=
  (c.functions.filter (fun f =>
    containsAny (lowerStr f.name) ["unstake", "withdraw", "leave", "exit"])).flatMap
    (fun f =>
      let hasTreeRemove := f.nodes.any (fun n =>
        containsAny (lowerStr n.content) ["remove", "delete", "pop"])
      if ¬hasTreeRemove then
        [("Unstake function may not remove from ranking tree", f)]
      else [])

/-- `FenwickTreeConsistencyDetector._detect` (fcfs_tiering.py lines
416-430). -/
def detect (cu : CompilationUnit) : List Finding :=
  cu.contractsDerived.flatMap (fun c =>
    if ¬usesTreeStructure c then []
    else
      (checkConsistency c).map (fun issue =>
        [issue.2.canonicalName, " " ++ issue.1 ++ "\n"]))

end FenwickTreeConsistencyDetector

/- ===================== catalogue (package __init__.py) ===================== -/

/-- `ALL_DETECTORS` from src/tools/slither-detectors/__init__.py lines
27-34: the six family lists concatenated in registration order, each rule
as its `ARGUMENT` id paired with its `_detect` entry point. -/
def ALL_DETECTORS : List (String × (CompilationUnit → List Finding)) :=
  [("mev-missing-slippage", MissingSlippageProtection.detect),
   ("mev-excessive-slippage", ExcessiveSlippageTolerance.detect),
   ("mev-missing-deadline", MissingDeadlineCheck.detect),
   ("mev-flash-loan-enabler", FlashLoanEnabler.detect),
   ("mev-oracle-manipulation", OracleManipulationRisk.detect),
   ("l2-sequencer-dependency", SequencerDependency.detect),
   ("l2-message-risk", L1L2MessageRisk.detect),
   ("l2-address-aliasing", AddressAliasingRisk.detect),
   ("l2-gas-calculation", L2GasCalculationRisk.detect),
   ("l2-reorg-risk", ReorgRisk.detect),
   ("restaking-slashing-risk", RestakingSlashingRisk.detect),
   ("restaking-delegation-risk", RestakingDelegationRisk.detect),
   ("intent-replay-risk", IntentReplayRisk.detect),
   ("solver-collusion-risk", SolverCollusionRisk.detect),
   ("points-sybil-risk", PointsSybilRisk.detect),
   ("merkle-proof-risk", MerkleProofRisk.detect),
   ("admin-upgrade-no-timelock", ProxyUpgradeNoTimelock.detect),
   ("admin-shared-deployer", SharedDeployerRisk.detect),
   ("l2-bridge-exit-risk", L2BridgeExitRisk.detect),
   ("admin-emergency-withdraw", EmergencyWithdrawRisk.detect),
   ("admin-multisig-bypass", MultiSigBypassRisk.detect),
   ("crypto-bn254-zero-point", BN254ZeroPointDetector.detect),
   ("crypto-rogue-key", RogueKeyAttackDetector.detect),
   ("crypto-sig-malleability", SignatureMalleabilityDetector.detect),
   ("crypto-zk-verification-gap", ZKProofVerificationGapDetector.detect),
   ("crypto-precompile-gas-l2", PrecompileGasExhaustionDetector.detect),
   ("fcfs-tier-boundary", TierBoundaryEdgeCaseDetector.detect),
   ("fcfs-ghost-staker", GhostStakerDetector.detect),
   ("fcfs-cascade-dos", CascadingTierUpdateDoSDetector.detect),
   ("fcfs-position-gaming", PositionGamingDetector.detect),
   ("fcfs-fenwick-consistency", FenwickTreeConsistencyDetector.detect)]

/-- One full pass of the catalogue over a model: every rule's id paired
with the findings its evaluation produces. -/
def runCatalogue (cu : CompilationUnit) : List (String × List Finding) :=
  ALL_DETECTORS.map (fun d => (d.1, d.2 cu))

/-- The compilation unit holding zero contracts. -/
def emptyCU : CompilationUnit := ⟨[], []⟩

/- ===================== engine/runner (spec §4.4) ===================== -/

/-- Modelled from the spec: the Engine/Runner of §4.4 is not part of src/
(the detectors plug into the host framework's runner); a rule here is its
unique string id plus an evaluation that, per entity, either returns
findings or fails, per §4.4 step 3 and §7 "Rule-evaluation errors". -/
structure MRule where
  id : String
  eval : String → Except String (List Finding)

/-- Modelled from the spec: the outcome of one (rule, entity) evaluation
cell — findings tagged with rule id and entity, or one recorded
rule-execution error tagged the same way (§4.4 step 3). -/
def evalCell (r : MRule) (e : String) :
    List (String × String × Finding) × List (String × String × String) :=
  match r.eval e with
  | .ok fs => (fs.map (fun f => (r.id, e, f)), [])
  | .error msg => ([], [(r.id, e, msg)])

/-- Modelled from the spec: a completed run returns the full finding sink
plus any rule-execution errors (§4.4 step 4). -/
structure RunResult where
  findings : List (String × String × Finding)
  errors : List (String × String × String)
deriving DecidableEq

/-- Modelled from the spec: `run(model, rules)` iterates entities × rules,
catches each rule-evaluation failure at (rule, entity) granularity, and
never aborts the run (§4.4). -/
def runEngine (rules : List MRule) (entities : List String) : RunResult :=
  { findings := entities.flatMap (fun e => rules.flatMap (fun r => (evalCell r e).1)),
    errors := entities.flatMap (fun e => rules.flatMap (fun r => (evalCell r e).2)) }

/-- Fault injection for rule `r` at entity `e`: the evaluation raises
`msg` there and is unchanged elsewhere. -/
def injectFault (r : MRule) (e : String) (msg : String) : MRule :=
  { r with eval := fun x => if x = e then .error msg else r.eval x }

/- ===================== claim C5 spec-side predicate ===================== -/

/-- Index of the matching loop end for the loop-start node at index `i`:
the first `ENDLOOP` node after it, or the end of the node list when none
exists. -/
def matchingEndIdx (ns : List Node) (i : Nat) : Nat :=
  match (ns.drop (i + 1)).findIdx? (fun n => n.typeName = "ENDLOOP") with
  | some k => i + 1 + k
  | none => ns.length

/-- Stated from the claim's words (C5), for comparison with the source's
`hasCascadingLoop`: some loop-type node exists, and some node strictly
after that loop's start and before its matching end matches the
update/tier pattern set. -/
def specLoopThenPattern (f : Function) : Bool :=
  f.nodes.enum.any (fun ni =>
    CascadingTierUpdateDoSDetector.isLoopNode ni.2 ∧
    f.nodes.enum.any (fun nj =>
      ni.1 < nj.1 ∧ nj.1 < matchingEndIdx f.nodes ni.1 ∧
      CascadingTierUpdateDoSDetector.matchesUpdate nj.2))

/-- Recursive form of the scan in `hasCascadingLoop`: `seen` records
whether a loop-start node has already been passed. -/
def scanLoop : Bool → List Node → Bool
  | _, [] => false
  | seen, n :: rest =>
    ((seen || CascadingTierUpdateDoSDetector.isLoopNode n) &&
      CascadingTierUpdateDoSDetector.matchesUpdate n) ||
    scanLoop (seen || CascadingTierUpdateDoSDetector.isLoopNode n) rest

/- ===================== concrete model inputs ===================== -/

/-- The call of the `MissingSlippageProtection` wiki exploit scenario
(mev_risks.py lines 44-50): `router.swapExactTokensForTokens(amountIn, 0,
path, msg.sender, block.timestamp)`.  The first argument is the function's
own parameter `amountIn`, hence data-dependent on it (slither's
`is_dependent` is reflexive); the second is the literal `0`. -/
def wikiSwapCall : HLCall :=
  { functionName := some "swapExactTokensForTokens",
    arguments :=
      [{ valueAttr := none, depParams := ["amountIn"] },
       { valueAttr := some "0", depParams := [] },
       { valueAttr := none, depParams := [] },
       { valueAttr := none, depParams := [] },
       { valueAttr := none, depParams := [] }],
    destIsSelf := false }

/-- The single body node of the wiki exploit scenario function. -/
def wikiSwapNode : Node :=
  { typeName := "EXPRESSION",
    content := "router.swapExactTokensForTokens(amountIn,0,path,msg.sender,block.timestamp)",
    exprStr := some "router.swapExactTokensForTokens(amountIn,0,path,msg.sender,block.timestamp)",
    containsRequireOrAssert := false,
    nodeId := 0,
    irs := [.highLevelCall wikiSwapCall] }

/-- The wiki exploit scenario function: `function swap(address tokenIn,
address tokenOut, uint256 amountIn) external`. -/
def wikiSwapFunction : Function :=
  { name := "swap",
    canonicalName := "Vault.swap(address,address,uint256)",
    visibility := "external",
    isConstructor := false,
    parameters :=
      [{ name := "tokenIn", typeStr := "address" },
       { name := "tokenOut", typeStr := "address" },
       { name := "amountIn", typeStr := "uint256" }],
    modifiers := [],
    nodes := [wikiSwapNode],
    stateVariablesWritten := [],
    internalCalls := [] }

/-- The contract holding the wiki exploit scenario function. -/
def wikiSwapContract : Contract :=
  { name := "Vault", functions := [wikiSwapFunction], stateVariables := [],
    constructorF := none }

/-- Compilation unit for the wiki exploit scenario. -/
def wikiSwapCU : CompilationUnit := ⟨[wikiSwapContract], [wikiSwapContract]⟩

/-- A loop-start node whose text matches no update/tier pattern. -/
def loopStartNode : Node :=
  { typeName := "STARTLOOP", content := "beginloop", exprStr := none,
    containsRequireOrAssert := false, nodeId := 0, irs := [] }

/-- The matching loop-end node. -/
def loopEndNode : Node :=
  { typeName := "ENDLOOP", content := "endloop", exprStr := none,
    containsRequireOrAssert := false, nodeId := 1, irs := [] }

/-- A node after the loop has closed whose text matches the update/tier
pattern set. -/
def afterLoopNode : Node :=
  { typeName := "EXPRESSION", content := "updateTier(user)",
    exprStr := some "updateTier(user)", containsRequireOrAssert := false,
    nodeId := 2, irs := [] }

/-- A function whose only update/tier pattern match sits strictly after
the loop's matching end. -/
def c5Function : Function :=
  { name := "rebalance", canonicalName := "Pool.rebalance()",
    visibility := "public", isConstructor := false, parameters := [],
    modifiers := [], nodes := [loopStartNode, loopEndNode, afterLoopNode],
    stateVariablesWritten := [], internalCalls := [] }

/-- A stake function with no minimum-amount enforcement node. -/
def c2StakeNode : Node :=
  { typeName := "EXPRESSION", content := "rankingTree.add(msg.sender)",
    exprStr := some "rankingTree.add(msg.sender)",
    containsRequireOrAssert := false, nodeId := 0, irs := [] }

/-- The unguarded stake function. -/
def c2StakeFunction : Function :=
  { name := "stake", canonicalName := "Staking.stake(uint256)",
    visibility := "external", isConstructor := false,
    parameters := [{ name := "amount", typeStr := "uint256" }],
    modifiers := [], nodes := [c2StakeNode],
    stateVariablesWritten := [], internalCalls := [] }

/-- A `require(amount > 0)` node. -/
def c2GuardNode : Node :=
  { typeName := "EXPRESSION", content := "require(amount > 0)",
    exprStr := some "require(amount > 0)", containsRequireOrAssert := true,
    nodeId := 0, irs := [] }

/-- The stake function with the guard node added. -/
def c2GuardedFunction : Function :=
  { c2StakeFunction with nodes := [c2GuardNode, c2StakeNode] }

/-- Contract and compilation unit around the unguarded stake function. -/
def c2Contract : Contract :=
  { name := "Staking", functions := [c2StakeFunction], stateVariables := [],
    constructorF := none }

/-- Compilation unit for the ghost-staker witness. -/
def c2CU : CompilationUnit := ⟨[c2Contract], [c2Contract]⟩

/-- Body node of an upgrade function with no timelock-pattern text. -/
def c3UpgradeNode : Node :=
  { typeName := "EXPRESSION", content := "impl = newImpl",
    exprStr := some "impl = newImpl", containsRequireOrAssert := false,
    nodeId := 0, irs := [] }

/-- An `upgradeTo` function without any delay enforcement. -/
def c3UpgradeFunction : Function :=
  { name := "upgradeTo", canonicalName := "ProxyAdmin.upgradeTo(address)",
    visibility := "external", isConstructor := false,
    parameters := [{ name := "newImpl", typeStr := "address" }],
    modifiers := [], nodes := [c3UpgradeNode],
    stateVariablesWritten := [], internalCalls := [] }

/-- A `ProxyAdmin` contract with no timelock pattern anywhere. -/
def c3Contract : Contract :=
  { name := "ProxyAdmin", functions := [c3UpgradeFunction],
    stateVariables := [], constructorF := none }

/-- Compilation unit for the admin-upgrade witness. -/
def c3CU : CompilationUnit := ⟨[c3Contract], [c3Contract]⟩

/-- The state variable whose addition must suppress the finding. -/
def c3TimelockVar : StateVariable :=
  { name := "timelockDelay", canonicalName := "ProxyAdmin.timelockDelay",
    typeStr := "uint256", expression := none }

/-- The `ProxyAdmin` contract after adding `timelockDelay`. -/
def c3FixedContract : Contract :=
  { c3Contract with stateVariables := [c3TimelockVar] }

/-- A constructor whose body would otherwise trigger the missing-slippage
rule: it calls `swap` with a literal `0` argument. -/
def c9ConstructorFunction : Function :=
  { name := "constructor", canonicalName := "Vault.constructor()",
    visibility := "public", isConstructor := true, parameters := [],
    modifiers := [],
    nodes :=
      [{ typeName := "EXPRESSION", content := "router.swap(0)",
         exprStr := some "router.swap(0)", containsRequireOrAssert := false,
         nodeId := 0,
         irs := [.highLevelCall
           { functionName := some "swap",
             arguments := [{ valueAttr := some "0", depParams := [] }],
             destIsSelf := false }] }],
    stateVariablesWritten := [], internalCalls := [] }

/-- Slippage variable initialized to exactly 500 bps. -/
def c10Var500 : StateVariable :=
  { name := "maxSlippage", canonicalName := "Pool.maxSlippage",
    typeStr := "uint256", expression := some { valueAttr := some "500" } }

/-- Slippage variable with no initializer. -/
def c10VarNone : StateVariable :=
  { name := "slippageTolerance", canonicalName := "Pool.slippageTolerance",
    typeStr := "uint256", expression := none }

/-- Slippage variable whose initializer value is not parseable as an
integer. -/
def c10VarBad : StateVariable :=
  { name := "slippageBps", canonicalName := "Pool.slippageBps",
    typeStr := "uint256", expression := some { valueAttr := some "five" } }

/-- Slippage variable initialized to 600 bps. -/
def c10Var600 : StateVariable :=
  { name := "maxSlippageHigh", canonicalName := "Pool.maxSlippageHigh",
    typeStr := "uint256", expression := some { valueAttr := some "600" } }

/-- A trivial always-succeeding rule for the fault-isolation witness. -/
def benignRule (i : String) : MRule :=
  { id := i, eval := fun e => .ok [["finding of " ++ i ++ " on " ++ e]] }

/-- Tag predicate selecting finding entries of rules/entities other than
the (rid, e) pair. -/
def otherThan (rid e : String) (t : String × String × Finding) : Bool :=
  !(t.1 == rid && t.2.1 == e)

/- ===================== helper lemmas ===================== -/

theorem filterFlatMapEq {α β : Type} (l : List α) (f : α → List β) (p : β → Bool) :
    (l.flatMap f).filter p = l.flatMap (fun x => (f x).filter p) := by
  induction l with
  | nil => rfl
  | cons a t ih => simp [List.flatMap_cons, List.filter_append, ih]

theorem flatMapNilOfAll {α β : Type} (l : List α) (f : α → List β)
    (h : ∀ x, f x = []) : l.flatMap f = [] := by
  induction l with
  | nil => rfl
  | cons a t ih => simp [List.flatMap_cons, h a, ih]

/- ===================== claim theorems ===================== -/

/-- C4: `extract_numeric` applied to `swap{gas: 21000}` with key `gas`
yields 21000, applied to `swap()` yields nothing, and on every input it
totally returns either an integer or nothing (the embedding is a total
function; the source's only failure mode, a failed regex match, is the
`none` branch). -/
theorem c4_extract_numeric :
    extract_numeric "swap\x7bgas: 21000\x7d" "gas" = some 21000 ∧
    extract_numeric "swap()" "gas" = none ∧
    ∀ (text key : String),
      extract_numeric text key = none ∨ ∃ n, extract_numeric text key = some n := by
  refine ⟨by decide, by decide, ?_⟩
  intro text key
  cases h : extract_numeric text key with
  | none => exact Or.inl rfl
  | some n => exact Or.inr ⟨n, rfl⟩

/-- C6: evaluating the rule catalogue twice over the same model yields
identical findings.  Every detector of the embedding is a pure function of
the compilation unit — the translation of the sources introduced no state
because the Python detectors only read the model (they never assign to any
Contract/Function/Node field) — so a second evaluation is definitionally
the first. -/
theorem c6_rule_purity (cu : CompilationUnit) :
    runCatalogue cu = runCatalogue cu := rfl

/-- C7: every rule of the combined catalogue evaluated over a model with
zero contracts yields zero findings; the embedding being total, no error
is raised. -/
theorem c7_empty_catalogue (cu : CompilationUnit)
    (h1 : cu.contractsDerived = []) (h2 : cu.contracts = []) :
    (runCatalogue cu).all (fun r => r.2.isEmpty) = true := by
  obtain ⟨cd, cs⟩ := cu
  dsimp only at h1 h2
  subst h1 h2
  decide

theorem c7_empty_catalogue_witness :
    (runCatalogue emptyCU).all (fun r => r.2.isEmpty) = true :=
  c7_empty_catalogue emptyCU rfl rfl

/-- C9: the missing-slippage rule skips constructors and private/internal
functions — their per-function evaluation contributes no finding
regardless of the body. -/
theorem c9_skip_nonpublic (f : Function)
    (h : f.isConstructor = true ∨ f.visibility = "private" ∨ f.visibility = "internal") :
    MissingSlippageProtection.perFunction f = [] := by
  unfold MissingSlippageProtection.perFunction
  rcases h with h | h | h <;> simp [h]

theorem c9_skip_nonpublic_witness :
    MissingSlippageProtection.perFunction c9ConstructorFunction = [] :=
  c9_skip_nonpublic c9ConstructorFunction (Or.inl rfl)

/-- C10: the excessive-slippage value check emits a finding exactly for a
parseable initializer strictly above 500 bps; a value of at most 500
(including exactly 500), a missing initializer, or an unparseable
initializer each yield no finding, and the embedding is total so no error
is raised (the source's `except (ValueError, TypeError)` is the `none`
branch of `parseIntPy`). -/
theorem c10_excessive_slippage :
    (∀ (v : StateVariable) (e : ExprVal) (n : Int),
       v.expression = some e →
       ExcessiveSlippageTolerance.extractNumericValue e = some n →
       n ≤ 500 →
       ExcessiveSlippageTolerance.checkSlippageValue v = []) ∧
    (∀ v : StateVariable, v.expression = none →
       ExcessiveSlippageTolerance.checkSlippageValue v = []) ∧
    (∀ (v : StateVariable) (e : ExprVal),
       v.expression = some e →
       ExcessiveSlippageTolerance.extractNumericValue e = none →
       ExcessiveSlippageTolerance.checkSlippageValue v = []) ∧
    (∀ (v : StateVariable) (e : ExprVal) (n : Int),
       v.expression = some e →
       ExcessiveSlippageTolerance.extractNumericValue e = some n →
       500 < n →
       ExcessiveSlippageTolerance.checkSlippageValue v ≠ []) := by
  refine ⟨?_, ?_, ?_, ?_⟩
  · intro v e n h1 h2 h3
    unfold ExcessiveSlippageTolerance.checkSlippageValue
    rw [h1]
    dsimp only
    rw [h2]
    have : ¬(n ≠ 0 ∧ n > ExcessiveSlippageTolerance.MAX_SLIPPAGE_BPS) := by
      unfold ExcessiveSlippageTolerance.MAX_SLIPPAGE_BPS
      omega
    dsimp only
    rw [if_neg this]
  · intro v h1
    unfold ExcessiveSlippageTolerance.checkSlippageValue
    rw [h1]
  · intro v e h1 h2
    unfold ExcessiveSlippageTolerance.checkSlippageValue
    rw [h1]
    dsimp only
    rw [h2]
  · intro v e n h1 h2 h3
    unfold ExcessiveSlippageTolerance.checkSlippageValue
    rw [h1]
    dsimp only
    rw [h2]
    have : n ≠ 0 ∧ n > ExcessiveSlippageTolerance.MAX_SLIPPAGE_BPS := by
      unfold ExcessiveSlippageTolerance.MAX_SLIPPAGE_BPS
      omega
    dsimp only
    rw [if_pos this]
    simp

theorem c10_excessive_slippage_witness :
    ExcessiveSlippageTolerance.checkSlippageValue c10Var500 = [] ∧
    ExcessiveSlippageTolerance.checkSlippageValue c10VarNone = [] ∧
    ExcessiveSlippageTolerance.checkSlippageValue c10VarBad = [] ∧
    ExcessiveSlippageTolerance.checkSlippageValue c10Var600 ≠ [] :=
  ⟨c10_excessive_slippage.1 c10Var500 { valueAttr := some "500" } 500 rfl (by decide) (by decide),
   c10_excessive_slippage.2.1 c10VarNone rfl,
   c10_excessive_slippage.2.2.1 c10VarBad { valueAttr := some "five" } rfl (by decide),
   c10_excessive_slippage.2.2.2 c10Var600 { valueAttr := some "600" } 600 rfl (by decide) (by decide)⟩

/-- C1 (code-bug evidence): on the detector's own documented exploit
scenario — an external, non-constructor function whose body calls the
DEX-swap-named `swapExactTokensForTokens` with the literal `0` min-output
argument and which declares no min-output-named parameter — the
missing-slippage rule emits no finding: the argument loop of
`_has_slippage_protection` returns `True` at the first parameter-dependent
argument (`amountIn`) before ever reaching the literal `0`. -/
theorem c1_missing_slippage_code_bug :
    wikiSwapFunction.visibility = "external" ∧
    wikiSwapFunction.isConstructor = false ∧
    wikiSwapFunction.parameters.all
      (fun p => !(MissingSlippageProtection.MIN_OUTPUT_PARAMS.contains
        (stripUnderscores (lowerStr p.name)))) = true ∧
    wikiSwapCall.functionName = some "swapExactTokensForTokens" ∧
    wikiSwapCall.arguments.any (fun a => a.valueAttr == some "0") = true ∧
    MissingSlippageProtection.detect wikiSwapCU = [] := by
  refine ⟨rfl, rfl, by decide, rfl, by decide, by decide⟩

/-- C2: a function whose lowercase name contains stake/deposit/join/register
and whose body contains no minimum-enforcement node receives the
ghost-staker finding; any function holding a `require(amount > 0)`-style
node (matching the source's minimum-enforcement patterns) is suppressed. -/
theorem c2_ghost_staker :
    (∀ (cu : CompilationUnit) (c : Contract) (f : Function),
        c ∈ cu.contractsDerived → f ∈ c.functions →
        GhostStakerDetector.isStakeLike f = true →
        GhostStakerDetector.enforcesMinimum f = false →
        GhostStakerDetector.ghostFinding f ∈ GhostStakerDetector.detect cu) ∧
    (∀ (f : Function) (n : Node), n ∈ f.nodes →
        strContains (lowerStr n.content) "require" = true →
        strContains (lowerStr n.content) "amount > 0" = true →
        GhostStakerDetector.perFunction f = []) := by
  constructor
  · intro cu c f hc hf hs he
    unfold GhostStakerDetector.detect
    refine List.mem_flatMap.mpr ⟨c, hc, ?_⟩
    refine List.mem_flatMap.mpr ⟨f, hf, ?_⟩
    simp [GhostStakerDetector.perFunction, hs, he]
  · intro f n hn hr ha
    have henf : GhostStakerDetector.enforcesMinimum f = true := by
      unfold GhostStakerDetector.enforcesMinimum
      refine List.any_eq_true.mpr ⟨n, hn, ?_⟩
      have hmem : containsAny (lowerStr n.content)
          ["amount > 0", "amount >= min", "minstake", "_amount > 0"] = true := by
        unfold containsAny
        exact List.any_eq_true.mpr ⟨"amount > 0", by simp, ha⟩
      simp [hr, hmem]
    unfold GhostStakerDetector.perFunction
    rw [henf]
    simp

theorem c2_ghost_staker_witness :
    GhostStakerDetector.ghostFinding c2StakeFunction ∈ GhostStakerDetector.detect c2CU ∧
    GhostStakerDetector.perFunction c2GuardedFunction = [] :=
  ⟨c2_ghost_staker.1 c2CU c2Contract c2StakeFunction (by decide) (by decide)
     (by decide) (by decide),
   c2_ghost_staker.2 c2GuardedFunction c2GuardNode (by decide) (by decide) (by decide)⟩

/-- C3: a proxy/admin-named contract holding an upgrade-named function,
with no timelock pattern on the contract (state variables,
schedule/queue/execute function names) and none in the function's body,
receives the admin-upgrade finding; adding a state variable named
`timelockDelay` makes `_contract_has_timelock` true and suppresses every
finding of the rule on that contract. -/
theorem c3_admin_upgrade :
    (∀ (cu : CompilationUnit) (c : Contract) (f : Function),
        c ∈ cu.contractsDerived → f ∈ c.functions →
        ProxyUpgradeNoTimelock.isProxyOrAdmin c = true →
        ProxyUpgradeNoTimelock.isUpgradeFunction f = true →
        ProxyUpgradeNoTimelock.contractHasTimelock c = false →
        ProxyUpgradeNoTimelock.functionHasDelay f = false →
        ProxyUpgradeNoTimelock.upgradeFinding f ∈ ProxyUpgradeNoTimelock.detect cu) ∧
    (∀ (c : Contract) (v : StateVariable), v ∈ c.stateVariables →
        v.name = "timelockDelay" →
        ProxyUpgradeNoTimelock.perContract c = []) := by
  constructor
  · intro cu c f hc hf hpa huf hct hfd
    unfold ProxyUpgradeNoTimelock.detect
    refine List.mem_flatMap.mpr ⟨c, hc, ?_⟩
    unfold ProxyUpgradeNoTimelock.perContract
    rw [hpa]
    simp only [Bool.not_true, ite_false, Bool.false_eq_true, if_false]
    refine List.mem_flatMap.mpr ⟨f, hf, ?_⟩
    simp [huf, hct, hfd]
  · intro c v hv hname
    have ht : ProxyUpgradeNoTimelock.contractHasTimelock c = true := by
      have h1 : c.stateVariables.any
          (fun w => containsAny (lowerStr w.name) ProxyUpgradeNoTimelock.TIMELOCK_PATTERNS)
          = true :=
        List.any_eq_true.mpr ⟨v, hv, by rw [hname]; decide⟩
      simp [ProxyUpgradeNoTimelock.contractHasTimelock, h1]
    unfold ProxyUpgradeNoTimelock.perContract
    by_cases hp : ProxyUpgradeNoTimelock.isProxyOrAdmin c = true
    · rw [if_neg (by simp [hp]), ht]
      dsimp only
      apply flatMapNilOfAll
      intro f
      simp
    · rw [if_pos (by simp [hp])]

theorem c3_admin_upgrade_witness :
    ProxyUpgradeNoTimelock.upgradeFinding c3UpgradeFunction ∈
      ProxyUpgradeNoTimelock.detect c3CU ∧
    ProxyUpgradeNoTimelock.perContract c3FixedContract = [] :=
  ⟨c3_admin_upgrade.1 c3CU c3Contract c3UpgradeFunction (by decide) (by decide)
     (by decide) (by decide) (by decide) (by decide),
   c3_admin_upgrade.2 c3FixedContract c3TimelockVar (by decide) rfl⟩

theorem foldlScanEq : ∀ (l : List Node) (st : Nat × Bool),
    (List.foldl
      (fun (st : Nat × Bool) n =>
        let loopCount := if CascadingTierUpdateDoSDetector.isLoopNode n then st.1 + 1 else st.1
        let hasUpdate := if loopCount > 0 ∧ CascadingTierUpdateDoSDetector.matchesUpdate n then true else st.2
        (loopCount, hasUpdate))
      st l).2 = (st.2 || scanLoop (decide (0 < st.1)) l) := by
  intro l
  induction l with
  | nil => intro st; simp [scanLoop]
  | cons n rest ih =>
    intro st
    rw [List.foldl_cons, ih]
    simp only [scanLoop]
    by_cases hL : CascadingTierUpdateDoSDetector.isLoopNode n = true
    · by_cases hM : CascadingTierUpdateDoSDetector.matchesUpdate n = true
      · simp [hL, hM, Nat.succ_pos, Bool.or_assoc]
      · simp [hL, hM, Nat.succ_pos, Bool.or_assoc]
    · by_cases hM : CascadingTierUpdateDoSDetector.matchesUpdate n = true
      · by_cases hc : 0 < st.1
        · simp [hL, hM, hc, Bool.or_assoc]
        · simp [hL, hM, hc, Bool.or_assoc]
      · simp [hL, hM]

theorem scanLoopIff : ∀ (l : List Node) (seen : Bool),
    scanLoop seen l = true ↔
    ∃ xs n ys, l = xs ++ n :: ys ∧
      ((seen || xs.any CascadingTierUpdateDoSDetector.isLoopNode ||
        CascadingTierUpdateDoSDetector.isLoopNode n) &&
       CascadingTierUpdateDoSDetector.matchesUpdate n) = true := by
  intro l
  induction l with
  | nil =>
    intro seen
    simp [scanLoop]
  | cons a rest ih =>
    intro seen
    simp only [scanLoop]
    constructor
    · intro h
      rw [Bool.or_eq_true] at h
      rcases h with h1 | h2
      · exact ⟨[], a, rest, rfl, by simpa using h1⟩
      · obtain ⟨xs, n, ys, heq, hcond⟩ := (ih _).mp h2
        refine ⟨a :: xs, n, ys, by rw [heq]; rfl, ?_⟩
        simp only [List.any_cons] at hcond ⊢
        simpa [Bool.or_assoc] using hcond
    · rintro ⟨xs, n, ys, heq, hcond⟩
      rw [Bool.or_eq_true]
      cases xs with
      | nil =>
        simp only [List.nil_append] at heq
        injection heq with h1 h2
        subst h1
        left
        simpa using hcond
      | cons x xs =>
        simp only [List.cons_append] at heq
        injection heq with h1 h2
        subst h1
        right
        apply (ih _).mpr
        refine ⟨xs, n, ys, h2, ?_⟩
        simp only [List.any_cons] at hcond
        simpa [Bool.or_assoc] using hcond

/-- C5 (counterexample): the source scan tracks no loop end.  In a
function whose only update/tier pattern match lies strictly after the
loop's matching `ENDLOOP`, `_has_cascading_loop` still returns true, while
the claim's loop-then-pattern predicate is false. -/
theorem c5_counterexample :
    CascadingTierUpdateDoSDetector.hasCascadingLoop c5Function = true ∧
    specLoopThenPattern c5Function = false := by
  refine ⟨by decide, by decide⟩

/-- C5 (amended): `_has_cascading_loop` returns true exactly when some
node matching the update/tier pattern set sits at or after a loop-type
node in the body's node order — the scan never closes a loop, so matches
after the loop's end still count, while matches strictly before every
loop-type node do not. -/
theorem c5_cascading_loop_amended (f : Function) :
    CascadingTierUpdateDoSDetector.hasCascadingLoop f = true ↔
    ∃ xs n ys, f.nodes = xs ++ n :: ys ∧
      ((xs.any CascadingTierUpdateDoSDetector.isLoopNode ||
        CascadingTierUpdateDoSDetector.isLoopNode n) &&
       CascadingTierUpdateDoSDetector.matchesUpdate n) = true := by
  unfold CascadingTierUpdateDoSDetector.hasCascadingLoop
  rw [foldlScanEq f.nodes (0, false)]
  have h0 : (decide (0 < 0)) = false := by decide
  rw [h0, Bool.false_or, scanLoopIff f.nodes false]
  simp [Bool.false_or]

/-- C8 (spec-modelled): injecting a fault into one rule's evaluation at
one entity makes the run record a rule-execution error tagged with the
rule id and the entity, while the findings of every other (rule, entity)
pair are unchanged and the run is not aborted. -/
theorem c8_fault_isolation (pre post : List MRule) (r : MRule)
    (entities : List String) (e msg : String) (he : e ∈ entities) :
    (r.id, e, msg) ∈ (runEngine (pre ++ injectFault r e msg :: post) entities).errors ∧
    (runEngine (pre ++ injectFault r e msg :: post) entities).findings.filter
        (otherThan r.id e)
      = (runEngine (pre ++ r :: post) entities).findings.filter
        (otherThan r.id e) := by
  constructor
  · refine List.mem_flatMap.mpr ⟨e, he, ?_⟩
    refine List.mem_flatMap.mpr ⟨injectFault r e msg, ?_, ?_⟩
    · exact List.mem_append_right _ (List.mem_cons_self _ _)
    · simp [evalCell, injectFault]
  · simp only [runEngine]
    rw [filterFlatMapEq entities, filterFlatMapEq entities]
    have hcell : ∀ e₁ : String,
        (evalCell (injectFault r e msg) e₁).1.filter (otherThan r.id e)
          = (evalCell r e₁).1.filter (otherThan r.id e) := by
      intro e₁
      by_cases h : e₁ = e
      · subst h
        simp only [evalCell, injectFault, if_pos rfl]
        cases hr : r.eval e₁ with
        | ok fs =>
          simp [otherThan, List.filter_map, Function.comp]
        | error m => simp
      · simp [evalCell, injectFault, h]
    have hpt : ∀ e₁ : String,
        List.filter (otherThan r.id e)
          ((pre ++ injectFault r e msg :: post).flatMap (fun r₁ => (evalCell r₁ e₁).1))
        = List.filter (otherThan r.id e)
          ((pre ++ r :: post).flatMap (fun r₁ => (evalCell r₁ e₁).1)) := by
      intro e₁
      rw [filterFlatMapEq, filterFlatMapEq]
      simp only [List.flatMap_append, List.flatMap_cons]
      rw [hcell e₁]
    exact congrArg (fun g => entities.flatMap g) (funext hpt)

theorem c8_fault_isolation_witness :
    ("r2", "E1", "boom") ∈
      (runEngine ([benignRule "r1"] ++ injectFault (benignRule "r2") "E1" "boom" ::
        [benignRule "r3"]) ["E1", "E2"]).errors ∧
    (runEngine ([benignRule "r1"] ++ injectFault (benignRule "r2") "E1" "boom" ::
        [benignRule "r3"]) ["E1", "E2"]).findings.filter (otherThan "r2" "E1")
      = (runEngine ([benignRule "r1"] ++ benignRule "r2" :: [benignRule "r3"])
          ["E1", "E2"]).findings.filter (otherThan "r2" "E1") :=
  c8_fault_isolation [benignRule "r1"] [benignRule "r3"] (benignRule "r2")
    ["E1", "E2"] "E1" "boom" (by decide)
